import Mathlib

/-!
# PongJS: a shallow embedding of `src/script.js`

The game state of `script.js` (classes `Ball`, `Paddle`, `Pong`) is embedded as
plain structures, and every method that mutates `this` becomes a function
from state to state.

Modelling decisions:

* JavaScript numbers are modelled as exact rationals (`ℚ`): the code only adds,
  subtracts, negates, halves and compares them.
* The constants `CANVAS_WIDTH` and `CANVAS_HEIGHT` are read from the DOM
  (`UI.canvas`); they are the two fields of `Canvas`. `PADDLE_HEIGHT` and
  `PADDLE_WIDTH` are computed from them as in the source.
* `UI.ptsToWin()` is `parseInt(...)`: an integer or `NaN`. It is the parameter
  `pts : Option ℤ` of `Pong.update` (`none` is `NaN`, for which `===` fails).
* `Math.random()` is a parameter of the Start handler.
* The DOM elements with id `winner-modal` are the list `winnerModals` of the
  winner names shown; `document.getElementById` finds the first one.
* Drawing (`draw`, `drawScore`, `drawGame`) and `requestAnimationFrame` do not
  change the game state and are left out; `ctx` is not part of the state.
-/

/-- The canvas dimensions read from the DOM: `UI.canvas.width`, `UI.canvas.height`. -/
structure Canvas where
  CANVAS_WIDTH : ℚ
  CANVAS_HEIGHT : ℚ
  deriving DecidableEq

/-- `const PADDLE_HEIGHT = UI.canvas.height * 0.24`. -/
def Canvas.PADDLE_HEIGHT (c : Canvas) : ℚ := c.CANVAS_HEIGHT * (24 / 100)

/-- `const PADDLE_WIDTH = UI.canvas.width * 0.02`. -/
def Canvas.PADDLE_WIDTH (c : Canvas) : ℚ := c.CANVAS_WIDTH * (2 / 100)

/-- `const BALL_RADIUS = UI.canvas.width * 0.005` (declared, not used by `Pong`). -/
def Canvas.BALL_RADIUS (c : Canvas) : ℚ := c.CANVAS_WIDTH * (5 / 1000)

/-- The fields of class `Ball` (without `ctx`). -/
structure Ball where
  radius : ℚ
  posX : ℚ
  posY : ℚ
  offsetPos : ℚ
  dx : ℚ
  dy : ℚ
  velocity : ℚ
  deriving DecidableEq

/-- The fields of class `Paddle` (without `ctx`). -/
structure Paddle where
  posX : ℚ
  posY : ℚ
  w : ℚ
  h : ℚ
  offsetX : ℚ
  offsetY : ℚ
  dy : ℚ
  velocity : ℚ
  deriving DecidableEq

/-- The fields of class `Pong`, and the winner modals present in the document. -/
structure Pong where
  ball : Ball
  p1 : Paddle
  p2 : Paddle
  p1Score : ℤ
  p2Score : ℤ
  isGameStart : Bool
  winnerModals : List String
  deriving DecidableEq

/-- `Ball.constructor(ctx, radius, posX, posY)`. -/
def Ball.constructor (radius posX posY : ℚ) : Ball :=
  { radius := radius, posX := posX, posY := posY, offsetPos := radius / 2,
    dx := 4, dy := 4, velocity := 6 }

/-- `Ball.move()`: `posX += dx; posY += dy`. -/
def Ball.move (b : Ball) : Ball :=
  { b with posX := b.posX + b.dx, posY := b.posY + b.dy }

/-- `Paddle.constructor(ctx, posX, posY, w, h)`. -/
def Paddle.constructor (posX posY w h : ℚ) : Paddle :=
  { posX := posX, posY := posY, w := w, h := h, offsetX := w / 2, offsetY := h / 2,
    dy := 0, velocity := 8 }

/-- `Paddle.move()`: add `dy`, then the upper clamp, then the lower clamp. -/
def Paddle.move (c : Canvas) (p : Paddle) : Paddle :=
  let p := { p with posY := p.posY + p.dy }
  let p := if p.posY + p.h > c.CANVAS_HEIGHT then { p with posY := c.CANVAS_HEIGHT - p.h } else p
  if p.posY < 0 then { p with posY := 0 } else p

/-- The `keydown` listener of `assignControlListeners(paddle, up, down)`. -/
def Paddle.keydown (up down key : String) (p : Paddle) : Paddle :=
  if key = up ∨ key = "Up" then { p with dy := -p.velocity }
  else if key = down ∨ key = "Down" then { p with dy := p.velocity }
  else p

/-- The `keyup` listener of `assignControlListeners(paddle, up, down)`. -/
def Paddle.keyup (up down key : String) (p : Paddle) : Paddle :=
  if key = up ∨ key = down ∨ key = "Up" ∨ key = "Down" then { p with dy := 0 } else p

namespace Pong

/-- `Pong.constructor(canvas)`: the initial state, with no winner modal in the page. -/
def constructor (c : Canvas) : Pong :=
  { ball := Ball.constructor 10 (c.CANVAS_WIDTH / 2) (c.CANVAS_HEIGHT / 2),
    p1 := Paddle.constructor 10 (c.CANVAS_HEIGHT / 2 - c.PADDLE_HEIGHT / 2) c.PADDLE_WIDTH c.PADDLE_HEIGHT,
    p2 := Paddle.constructor (c.CANVAS_WIDTH - c.PADDLE_WIDTH - 10)
      (c.CANVAS_HEIGHT / 2 - c.PADDLE_HEIGHT / 2) c.PADDLE_WIDTH c.PADDLE_HEIGHT,
    p1Score := 0,
    p2Score := 0,
    isGameStart := false,
    winnerModals := [] }

/-- A `keydown` event: both listeners run, `p1` with keys `w`/`s`, `p2` with the arrows. -/
def keydown (key : String) (s : Pong) : Pong :=
  { s with p1 := s.p1.keydown "w" "s" key, p2 := s.p2.keydown "ArrowUp" "ArrowDown" key }

/-- A `keyup` event: both listeners run. -/
def keyup (key : String) (s : Pong) : Pong :=
  { s with p1 := s.p1.keyup "w" "s" key, p2 := s.p2.keyup "ArrowUp" "ArrowDown" key }

/-- `resetBallPos()`: put the ball at the center of the canvas. -/
def resetBallPos (c : Canvas) (s : Pong) : Pong :=
  { s with ball := { s.ball with posX := c.CANVAS_WIDTH / 2, posY := c.CANVAS_HEIGHT / 2 } }

/-- `winnerModal.remove()` when `document.getElementById('winner-modal')` finds one. -/
def removeWinnerModal (s : Pong) : Pong :=
  { s with winnerModals := s.winnerModals.tail }

/-- `UI.displayWinner(winner)`: append a new winner modal to the body. -/
def displayWinner (winner : String) (s : Pong) : Pong :=
  { s with winnerModals := s.winnerModals ++ [winner] }

/-- The click listener of `UI.startBtn`; `r1`, `r2` are the two `Math.random()` results. -/
def startHandler (c : Canvas) (r1 r2 : ℚ) (s : Pong) : Pong :=
  let s := removeWinnerModal s
  let s := { s with isGameStart := true }
  let s := resetBallPos c s
  let s := { s with ball := { s.ball with dx := if r1 > 1 / 2 then s.ball.dx else -s.ball.dx } }
  { s with ball := { s.ball with dy := if r2 > 1 / 2 then s.ball.dy else -s.ball.dy } }

/-- The click listener of `UI.resetBtn`. -/
def resetHandler (c : Canvas) (s : Pong) : Pong :=
  let s := removeWinnerModal s
  let s := { s with isGameStart := false }
  let s := resetBallPos c s
  let s := { s with p1 := { s.p1 with posY := c.CANVAS_HEIGHT / 2 - c.PADDLE_HEIGHT / 2 } }
  let s := { s with p2 := { s.p2 with posY := c.CANVAS_HEIGHT / 2 - c.PADDLE_HEIGHT / 2 } }
  let s := { s with p1Score := 0 }
  { s with p2Score := 0 }

/-- The test of the first `if` of `ballPaddleCollisions` (paddle 1). -/
def hitsP1 (s : Pong) : Prop :=
  s.ball.posX < s.p1.posX + s.p1.w ∧ s.ball.posY > s.p1.posY ∧ s.ball.posY < s.p1.posY + s.p1.h

/-- The test of the second `if` of `ballPaddleCollisions` (paddle 2). -/
def hitsP2 (s : Pong) : Prop :=
  s.ball.posX > s.p2.posX ∧ s.ball.posY > s.p2.posY ∧ s.ball.posY < s.p2.posY + s.p2.h

instance (s : Pong) : Decidable (hitsP1 s) :=
  inferInstanceAs (Decidable (_ ∧ _ ∧ _))

instance (s : Pong) : Decidable (hitsP2 s) :=
  inferInstanceAs (Decidable (_ ∧ _ ∧ _))

/-- `ballPaddleCollisions()`: two successive tests, each negating `ball.dx`. -/
def ballPaddleCollisions (s : Pong) : Pong :=
  let s := if hitsP1 s then { s with ball := { s.ball with dx := -s.ball.dx } } else s
  if hitsP2 s then { s with ball := { s.ball with dx := -s.ball.dx } } else s

/-- `ballWallCollisions()`: right wall, then left wall, then top and bottom walls. -/
def ballWallCollisions (c : Canvas) (s : Pong) : Pong :=
  let s := if s.ball.posX + s.ball.radius > c.CANVAS_WIDTH then
      resetBallPos c { s with p1Score := s.p1Score + 1 } else s
  let s := if s.ball.posX < 0 then
      resetBallPos c { s with p2Score := s.p2Score + 1 } else s
  if s.ball.posY + s.ball.radius > c.CANVAS_HEIGHT ∨ s.ball.posY - s.ball.radius < 0 then
    { s with ball := { s.ball with dy := -s.ball.dy } }
  else s

/-- One win check of `update()`: `mine > other && mine === UI.ptsToWin()`. -/
def winCheck (pts : Option ℤ) (mine other : ℤ) (winner : String) (s : Pong) : Pong :=
  if mine > other ∧ pts = some mine then
    let s := { s with isGameStart := false }
    if s.winnerModals = [] then displayWinner winner s else s
  else s

/-- `update()`: one frame; `pts` is what `UI.ptsToWin()` returns during the frame. -/
def update (c : Canvas) (pts : Option ℤ) (s : Pong) : Pong :=
  let s := if s.isGameStart then { s with ball := s.ball.move } else s
  let s := winCheck pts s.p1Score s.p2Score "P1" s
  let s := winCheck pts s.p2Score s.p1Score "P2" s
  let s := { s with p1 := s.p1.move c }
  let s := { s with p2 := s.p2.move c }
  let s := ballPaddleCollisions s
  ballWallCollisions c s

end Pong

/-- The ball and paddles as `update()` hands them to `ballPaddleCollisions`: the ball
advanced by `Ball.move` when the game is running, both paddles advanced by `Paddle.move`. -/
def Pong.advanced (c : Canvas) (s : Pong) : Pong :=
  { s with ball := if s.isGameStart then s.ball.move else s.ball,
           p1 := s.p1.move c, p2 := s.p2.move c }

/-- Two states agree on the ball, the paddles and the scores (all that the collision
functions read and write); they may differ in `isGameStart` and in the winner modals. -/
def Pong.sameGame (s t : Pong) : Prop :=
  s.ball = t.ball ∧ s.p1 = t.p1 ∧ s.p2 = t.p2 ∧ s.p1Score = t.p1Score ∧ s.p2Score = t.p2Score

/-- The two clamps of `Paddle.move` in the other order: add `dy`, then the lower clamp
(`posY < 0` gives `0`), then the upper clamp (`posY + h > CANVAS_HEIGHT` gives
`CANVAS_HEIGHT - h`). Not in the source: the variant that `Paddle.move` is compared with. -/
def Paddle.moveLowerFirst (c : Canvas) (p : Paddle) : Paddle :=
  let p := { p with posY := p.posY + p.dy }
  let p := if p.posY < 0 then { p with posY := 0 } else p
  if p.posY + p.h > c.CANVAS_HEIGHT then { p with posY := c.CANVAS_HEIGHT - p.h } else p

/-- What can happen to a game: a click on Start (with its two random numbers), a click on
Reset, a key pressed or released, or a frame (with the value of `UI.ptsToWin()`). -/
inductive Pong.Event where
  | start (r1 r2 : ℚ)
  | reset
  | keydown (key : String)
  | keyup (key : String)
  | frame (pts : Option ℤ)
  deriving DecidableEq

/-- The listener or method that an event runs. -/
def Pong.step (c : Canvas) (s : Pong) : Pong.Event → Pong
  | .start r1 r2 => Pong.startHandler c r1 r2 s
  | .reset => Pong.resetHandler c s
  | .keydown key => Pong.keydown key s
  | .keyup key => Pong.keyup key s
  | .frame pts => Pong.update c pts s

/-- The state after a sequence of events, oldest first. -/
def Pong.run (c : Canvas) (s : Pong) (es : List Pong.Event) : Pong :=
  es.foldl (Pong.step c) s

/-- The state after successive calls of `update()`, one per element of `ptss`. -/
def Pong.updates (c : Canvas) (s : Pong) (ptss : List (Option ℤ)) : Pong :=
  ptss.foldl (fun s pts => Pong.update c pts s) s

/-- Two balls have the same speed on each axis and the same radius. -/
def Ball.sameSpeed (a b : Ball) : Prop :=
  |a.dx| = |b.dx| ∧ |a.dy| = |b.dy| ∧ a.radius = b.radius

/-- The ball lies horizontally inside the canvas: `0 ≤ posX` and `posX + radius ≤
CANVAS_WIDTH`. -/
def Pong.ballInCanvas (c : Canvas) (s : Pong) : Prop :=
  0 ≤ s.ball.posX ∧ s.ball.posX + s.ball.radius ≤ c.CANVAS_WIDTH

/-! ## Example data -/

/-- A 800 x 480 canvas. -/
def canvas800 : Canvas := { CANVAS_WIDTH := 800, CANVAS_HEIGHT := 480 }

/-- A paddle near the bottom of `canvas800`, moving down. -/
def paddleLow : Paddle := { Paddle.constructor 10 360 16 (576 / 5) with dy := 8 }

/-- A running game on `canvas800` with the given ball position, velocity and scores. -/
def playing (x y dx dy : ℚ) (a b : ℤ) : Pong :=
  { Pong.constructor canvas800 with
    ball := { Ball.constructor 10 x y with dx := dx, dy := dy },
    p1Score := a, p2Score := b, isGameStart := true }

/-- A 30 x 18 canvas. -/
def canvas30 : Canvas := { CANVAS_WIDTH := 30, CANVAS_HEIGHT := 18 }

/-- Start, a frame, the key `w`, another frame and Reset. -/
def someEvents : List Pong.Event :=
  [.start (7 / 10) (2 / 10), .frame (some 3), .keydown "w", .frame (some 3), .reset]

/-! ## Paddle clamping -/

/-- C1: for a paddle with `0 < h ≤ CANVAS_HEIGHT`, any `posY` and any `dy`, after
`Paddle.move` the paddle lies inside the canvas: `0 ≤ posY` and `posY + h ≤ CANVAS_HEIGHT`. -/
theorem Paddle.move_within_canvas (c : Canvas) (p : Paddle)
    (_hpos : 0 < p.h) (hle : p.h ≤ c.CANVAS_HEIGHT) :
    0 ≤ (p.move c).posY ∧ (p.move c).posY + (p.move c).h ≤ c.CANVAS_HEIGHT := by
  unfold Paddle.move
  simp only
  split_ifs with h1 h2 h2 <;> simp only at * <;> constructor <;> linarith

/-- Witness of C1: `paddleLow` on `canvas800` (the upper clamp fires). -/
theorem Paddle.move_within_canvas_witness :
    (0 < paddleLow.h ∧ paddleLow.h ≤ canvas800.CANVAS_HEIGHT) ∧
    0 ≤ (paddleLow.move canvas800).posY ∧
    (paddleLow.move canvas800).posY + (paddleLow.move canvas800).h ≤ canvas800.CANVAS_HEIGHT :=
  ⟨by norm_num [paddleLow, canvas800, Paddle.constructor],
   Paddle.move_within_canvas canvas800 paddleLow
    (by norm_num [paddleLow, Paddle.constructor])
    (by norm_num [paddleLow, canvas800, Paddle.constructor])⟩

/-! ## What one frame does to the ball, the paddles and the scores -/

namespace Pong

@[simp] theorem winCheck_ball (pts : Option ℤ) (a b : ℤ) (w : String) (s : Pong) :
    (winCheck pts a b w s).ball = s.ball := by
  unfold winCheck displayWinner; simp only; split_ifs <;> rfl

@[simp] theorem winCheck_p1 (pts : Option ℤ) (a b : ℤ) (w : String) (s : Pong) :
    (winCheck pts a b w s).p1 = s.p1 := by
  unfold winCheck displayWinner; simp only; split_ifs <;> rfl

@[simp] theorem winCheck_p2 (pts : Option ℤ) (a b : ℤ) (w : String) (s : Pong) :
    (winCheck pts a b w s).p2 = s.p2 := by
  unfold winCheck displayWinner; simp only; split_ifs <;> rfl

@[simp] theorem winCheck_p1Score (pts : Option ℤ) (a b : ℤ) (w : String) (s : Pong) :
    (winCheck pts a b w s).p1Score = s.p1Score := by
  unfold winCheck displayWinner; simp only; split_ifs <;> rfl

@[simp] theorem winCheck_p2Score (pts : Option ℤ) (a b : ℤ) (w : String) (s : Pong) :
    (winCheck pts a b w s).p2Score = s.p2Score := by
  unfold winCheck displayWinner; simp only; split_ifs <;> rfl

theorem winCheck_isGameStart (pts : Option ℤ) (a b : ℤ) (w : String) (s : Pong) :
    (winCheck pts a b w s).isGameStart = (if a > b ∧ pts = some a then false else s.isGameStart) := by
  unfold winCheck displayWinner; simp only; split_ifs <;> rfl

@[simp] theorem ballPaddleCollisions_isGameStart (s : Pong) :
    (ballPaddleCollisions s).isGameStart = s.isGameStart := by
  unfold ballPaddleCollisions; simp only; split_ifs <;> rfl

@[simp] theorem ballWallCollisions_isGameStart (c : Canvas) (s : Pong) :
    (ballWallCollisions c s).isGameStart = s.isGameStart := by
  unfold ballWallCollisions resetBallPos; simp only; split_ifs <;> rfl

theorem sameGame_trans {s t u : Pong} (h1 : sameGame s t) (h2 : sameGame t u) : sameGame s u :=
  ⟨h1.1.trans h2.1, h1.2.1.trans h2.2.1, h1.2.2.1.trans h2.2.2.1,
   h1.2.2.2.1.trans h2.2.2.2.1, h1.2.2.2.2.trans h2.2.2.2.2⟩

theorem ballPaddleCollisions_sameGame {s t : Pong} (h : sameGame s t) :
    sameGame (ballPaddleCollisions s) (ballPaddleCollisions t) := by
  obtain ⟨b, p1, p2, a1, a2, g, m⟩ := s
  obtain ⟨b', p1', p2', a1', a2', g', m'⟩ := t
  simp only [sameGame] at h
  obtain ⟨rfl, rfl, rfl, rfl, rfl⟩ := h
  simp only [ballPaddleCollisions, hitsP1, hitsP2, sameGame]
  split_ifs <;> simp_all

theorem ballWallCollisions_sameGame (c : Canvas) {s t : Pong} (h : sameGame s t) :
    sameGame (ballWallCollisions c s) (ballWallCollisions c t) := by
  obtain ⟨b, p1, p2, a1, a2, g, m⟩ := s
  obtain ⟨b', p1', p2', a1', a2', g', m'⟩ := t
  simp only [sameGame] at h
  obtain ⟨rfl, rfl, rfl, rfl, rfl⟩ := h
  simp only [ballWallCollisions, resetBallPos, sameGame]
  split_ifs <;> simp_all

theorem update_sameGame (c : Canvas) (pts : Option ℤ) (s : Pong) :
    sameGame (update c pts s) (ballWallCollisions c (ballPaddleCollisions (advanced c s))) := by
  unfold update
  apply ballWallCollisions_sameGame
  apply ballPaddleCollisions_sameGame
  simp only [sameGame, advanced, winCheck_ball, winCheck_p1, winCheck_p2, winCheck_p1Score,
    winCheck_p2Score]
  split_ifs <;> simp

/-- `ballPaddleCollisions` changes nothing but `ball.dx`. -/
theorem ballPaddleCollisions_eq (s : Pong) :
    ballPaddleCollisions s =
      { s with ball := { s.ball with dx := (ballPaddleCollisions s).ball.dx } } := by
  obtain ⟨b, p1, p2, a1, a2, g, m⟩ := s
  simp only [ballPaddleCollisions, hitsP1, hitsP2]
  split_ifs <;> simp_all

/-- The two tests of `ballPaddleCollisions` see the same ball position: `dx` is negated
when exactly one of them holds. -/
theorem ballPaddleCollisions_dx (s : Pong) :
    (ballPaddleCollisions s).ball.dx =
      if hitsP1 s then (if hitsP2 s then s.ball.dx else -s.ball.dx)
      else (if hitsP2 s then -s.ball.dx else s.ball.dx) := by
  obtain ⟨b, p1, p2, a1, a2, g, m⟩ := s
  simp only [ballPaddleCollisions, hitsP1, hitsP2]
  split_ifs <;> simp_all

/-- `ballWallCollisions` never changes `ball.dx` nor `ball.radius`. -/
theorem ballWallCollisions_dx (c : Canvas) (s : Pong) :
    (ballWallCollisions c s).ball.dx = s.ball.dx ∧
    (ballWallCollisions c s).ball.radius = s.ball.radius := by
  obtain ⟨b, p1, p2, a1, a2, g, m⟩ := s
  simp only [ballWallCollisions, resetBallPos]
  split_ifs <;> simp_all

/-- The right-wall rule of `ballWallCollisions`, on a canvas of width at least 0. -/
theorem ballWallCollisions_right (c : Canvas) (s : Pong) (hW : 0 ≤ c.CANVAS_WIDTH)
    (hwall : s.ball.posX + s.ball.radius > c.CANVAS_WIDTH) :
    (ballWallCollisions c s).p1Score = s.p1Score + 1 ∧
    (ballWallCollisions c s).p2Score = s.p2Score ∧
    (ballWallCollisions c s).ball.posX = c.CANVAS_WIDTH / 2 ∧
    (ballWallCollisions c s).ball.posY = c.CANVAS_HEIGHT / 2 ∧
    (s.ball.radius ≤ c.CANVAS_HEIGHT / 2 → (ballWallCollisions c s).ball.dy = s.ball.dy) := by
  obtain ⟨b, p1, p2, a1, a2, g, m⟩ := s
  simp only at hwall
  have h2 : ¬ c.CANVAS_WIDTH / 2 < 0 := by linarith
  simp only [ballWallCollisions, resetBallPos, hwall, h2, if_true, if_false]
  refine ⟨?_, ?_, ?_, ?_, ?_⟩
  · split_ifs <;> rfl
  · split_ifs <;> rfl
  · split_ifs <;> rfl
  · split_ifs <;> rfl
  · intro hr
    have h3 : ¬ (c.CANVAS_HEIGHT / 2 + b.radius > c.CANVAS_HEIGHT ∨
        c.CANVAS_HEIGHT / 2 - b.radius < 0) := by
      intro h; rcases h with h | h <;> linarith
    simp only [h3, if_false]

/-- Each score is left alone or raised by 1 by `ballWallCollisions`. -/
theorem ballWallCollisions_scores (c : Canvas) (s : Pong) :
    ((ballWallCollisions c s).p1Score = s.p1Score ∨
      (ballWallCollisions c s).p1Score = s.p1Score + 1) ∧
    ((ballWallCollisions c s).p2Score = s.p2Score ∨
      (ballWallCollisions c s).p2Score = s.p2Score + 1) := by
  obtain ⟨b, p1, p2, a1, a2, g, m⟩ := s
  simp only [ballWallCollisions, resetBallPos]
  split_ifs <;> simp

/-- Each score is left alone or raised by 1 by `update`. -/
theorem update_scores (c : Canvas) (pts : Option ℤ) (s : Pong) :
    ((update c pts s).p1Score = s.p1Score ∨ (update c pts s).p1Score = s.p1Score + 1) ∧
    ((update c pts s).p2Score = s.p2Score ∨ (update c pts s).p2Score = s.p2Score + 1) := by
  obtain ⟨-, -, -, h1, h2⟩ := update_sameGame c pts s
  have h := ballWallCollisions_scores c (ballPaddleCollisions (advanced c s))
  rw [ballPaddleCollisions_eq] at h
  rw [h1, h2, ballPaddleCollisions_eq]
  exact h

/-- The flag `isGameStart` after `update`: cleared by either win check, else unchanged. -/
theorem update_isGameStart (c : Canvas) (pts : Option ℤ) (s : Pong) :
    (update c pts s).isGameStart =
      if (s.p1Score > s.p2Score ∧ pts = some s.p1Score) ∨
         (s.p2Score > s.p1Score ∧ pts = some s.p2Score) then false else s.isGameStart := by
  unfold update
  simp only [ballWallCollisions_isGameStart, ballPaddleCollisions_isGameStart,
    winCheck_isGameStart, winCheck_p1Score, winCheck_p2Score]
  split_ifs with h1 h2 h3 h4 h5 h6 h7 h8 <;> first | rfl | tauto

/-- The paddles after `update` are the paddles advanced by `Paddle.move`. -/
theorem update_paddles (c : Canvas) (pts : Option ℤ) (s : Pong) :
    (update c pts s).p1 = s.p1.move c ∧ (update c pts s).p2 = s.p2.move c := by
  obtain ⟨-, h1, h2, -, -⟩ := update_sameGame c pts s
  rw [h1, h2, ballPaddleCollisions_eq]
  generalize (ballPaddleCollisions (advanced c s)).ball.dx = d
  simp only [ballWallCollisions, resetBallPos, advanced]
  split_ifs <;> simp

/-- When none of its three tests holds, `ballWallCollisions` changes nothing. -/
theorem ballWallCollisions_idle (c : Canvas) (s : Pong)
    (hr : ¬ s.ball.posX + s.ball.radius > c.CANVAS_WIDTH) (hl : ¬ s.ball.posX < 0)
    (hv : ¬ (s.ball.posY + s.ball.radius > c.CANVAS_HEIGHT ∨ s.ball.posY - s.ball.radius < 0)) :
    ballWallCollisions c s = s := by
  simp only [ballWallCollisions, hr, hl, hv, if_false]

/-- When neither of its tests holds, `ballPaddleCollisions` changes nothing. -/
theorem ballPaddleCollisions_idle (s : Pong) (h1 : ¬ hitsP1 s) (h2 : ¬ hitsP2 s) :
    ballPaddleCollisions s = s := by
  simp only [ballPaddleCollisions, h1, h2, if_false]

/-- The left-wall rule of `ballWallCollisions`, when the right-wall test does not hold. -/
theorem ballWallCollisions_left (c : Canvas) (s : Pong)
    (hr : ¬ s.ball.posX + s.ball.radius > c.CANVAS_WIDTH) (hl : s.ball.posX < 0) :
    (ballWallCollisions c s).p2Score = s.p2Score + 1 ∧
    (ballWallCollisions c s).p1Score = s.p1Score ∧
    (ballWallCollisions c s).ball.posX = c.CANVAS_WIDTH / 2 ∧
    (ballWallCollisions c s).ball.posY = c.CANVAS_HEIGHT / 2 := by
  obtain ⟨b, p1, p2, a1, a2, g, m⟩ := s
  simp only at hr hl
  simp only [ballWallCollisions, resetBallPos, hr, hl, if_true, if_false]
  refine ⟨?_, ?_, ?_, ?_⟩ <;> split_ifs <;> rfl

/-- The ball and the scores after `update`, in terms of the advanced state and of the
`dx` that `ballPaddleCollisions` computes from it. -/
theorem update_ball_scores (c : Canvas) (pts : Option ℤ) (s : Pong) :
    (update c pts s).ball =
      (ballWallCollisions c { advanced c s with
        ball := { (advanced c s).ball with
          dx := (ballPaddleCollisions (advanced c s)).ball.dx } }).ball ∧
    (update c pts s).p1Score =
      (ballWallCollisions c { advanced c s with
        ball := { (advanced c s).ball with
          dx := (ballPaddleCollisions (advanced c s)).ball.dx } }).p1Score ∧
    (update c pts s).p2Score =
      (ballWallCollisions c { advanced c s with
        ball := { (advanced c s).ball with
          dx := (ballPaddleCollisions (advanced c s)).ball.dx } }).p2Score := by
  obtain ⟨hb, -, -, h1, h2⟩ := update_sameGame c pts s
  rw [ballPaddleCollisions_eq] at hb h1 h2
  exact ⟨hb, h1, h2⟩

/-- The `dx` of the ball after `update`: only `ballPaddleCollisions` changes it. -/
theorem update_dx (c : Canvas) (pts : Option ℤ) (s : Pong) :
    (update c pts s).ball.dx =
      if hitsP1 (advanced c s) then
        (if hitsP2 (advanced c s) then (advanced c s).ball.dx else -(advanced c s).ball.dx)
      else (if hitsP2 (advanced c s) then -(advanced c s).ball.dx else (advanced c s).ball.dx) := by
  obtain ⟨hb, -, -, -, -⟩ := update_sameGame c pts s
  rw [hb, (ballWallCollisions_dx c _).1, ballPaddleCollisions_dx]

/-- The advanced ball keeps its velocity. -/
theorem advanced_ball_dx (c : Canvas) (s : Pong) :
    (advanced c s).ball.dx = s.ball.dx ∧ (advanced c s).ball.dy = s.ball.dy := by
  unfold advanced Ball.move
  split_ifs <;> exact ⟨rfl, rfl⟩

/-- The test of paddle 1 on the advanced state of a running game, spelled out. -/
theorem hitsP1_advanced (c : Canvas) (s : Pong) (hplay : s.isGameStart = true) :
    hitsP1 (advanced c s) ↔
      s.ball.posX + s.ball.dx < s.p1.posX + s.p1.w ∧
      s.ball.posY + s.ball.dy > (s.p1.move c).posY ∧
      s.ball.posY + s.ball.dy < (s.p1.move c).posY + s.p1.h := by
  have hm : (s.p1.move c).posX = s.p1.posX ∧ (s.p1.move c).w = s.p1.w ∧
      (s.p1.move c).h = s.p1.h := by
    unfold Paddle.move
    simp only
    split_ifs <;> exact ⟨rfl, rfl, rfl⟩
  simp only [hitsP1, advanced, hplay, if_true, Ball.move, hm.1, hm.2.1, hm.2.2]

theorem winCheck_winnerModals (pts : Option ℤ) (a b : ℤ) (w : String) (s : Pong) :
    (winCheck pts a b w s).winnerModals =
      if (a > b ∧ pts = some a) ∧ s.winnerModals = [] then [w] else s.winnerModals := by
  unfold winCheck displayWinner
  simp only
  split_ifs with h1 h2 h3 h4 h5 <;> first | rfl | simp_all

@[simp] theorem ballPaddleCollisions_winnerModals (s : Pong) :
    (ballPaddleCollisions s).winnerModals = s.winnerModals := by
  unfold ballPaddleCollisions; simp only; split_ifs <;> rfl

@[simp] theorem ballWallCollisions_winnerModals (c : Canvas) (s : Pong) :
    (ballWallCollisions c s).winnerModals = s.winnerModals := by
  unfold ballWallCollisions resetBallPos; simp only; split_ifs <;> rfl

/-- The winner modals after `update`: one is appended when a win check holds and none is
present; otherwise they are unchanged. -/
theorem update_winnerModals (c : Canvas) (pts : Option ℤ) (s : Pong) :
    (update c pts s).winnerModals =
      if s.winnerModals = [] then
        (if s.p1Score > s.p2Score ∧ pts = some s.p1Score then ["P1"]
         else if s.p2Score > s.p1Score ∧ pts = some s.p2Score then ["P2"] else [])
      else s.winnerModals := by
  unfold update
  simp only [ballWallCollisions_winnerModals, ballPaddleCollisions_winnerModals,
    winCheck_winnerModals, winCheck_p1Score, winCheck_p2Score]
  by_cases hm : s.winnerModals = []
  · by_cases h1 : s.p1Score > s.p2Score ∧ pts = some s.p1Score
    · have h2 : ¬ (s.p2Score > s.p1Score ∧ pts = some s.p2Score) := fun h => by omega
      split_ifs <;> simp_all
    · split_ifs <;> simp_all
  · split_ifs <;> simp_all

/-- At most one score is raised by `ballWallCollisions`, by exactly 1, when the canvas
center is not left of 0. -/
theorem ballWallCollisions_one_score (c : Canvas) (s : Pong) (hW : 0 ≤ c.CANVAS_WIDTH) :
    ((ballWallCollisions c s).p1Score = s.p1Score ∧
      (ballWallCollisions c s).p2Score = s.p2Score) ∨
    ((ballWallCollisions c s).p1Score = s.p1Score + 1 ∧
      (ballWallCollisions c s).p2Score = s.p2Score) ∨
    ((ballWallCollisions c s).p1Score = s.p1Score ∧
      (ballWallCollisions c s).p2Score = s.p2Score + 1) := by
  obtain ⟨b, p1, p2, a1, a2, g, m⟩ := s
  have h2 : ¬ c.CANVAS_WIDTH / 2 < 0 := by linarith
  simp only [ballWallCollisions, resetBallPos]
  split_ifs <;> simp_all

/-- After `ballWallCollisions` the ball is horizontally inside the canvas, when its radius
is at most half the width of the canvas. -/
theorem ballWallCollisions_ballInCanvas (c : Canvas) (s : Pong) (hW : 0 ≤ c.CANVAS_WIDTH)
    (hr : s.ball.radius ≤ c.CANVAS_WIDTH / 2) :
    ballInCanvas c (ballWallCollisions c s) := by
  obtain ⟨b, p1, p2, a1, a2, g, m⟩ := s
  simp only at hr
  simp only [ballInCanvas, ballWallCollisions, resetBallPos]
  split_ifs <;> simp only at * <;> constructor <;> linarith

/-- One `update` leaves the winner modals unchanged, or appends one to an empty list. -/
theorem update_winnerModals_cases (c : Canvas) (pts : Option ℤ) (s : Pong) :
    (update c pts s).winnerModals = s.winnerModals ∨
    (s.winnerModals = [] ∧ ∃ w, (update c pts s).winnerModals = [w]) := by
  rw [update_winnerModals]
  by_cases hm : s.winnerModals = []
  · rw [if_pos hm]
    split_ifs
    · exact Or.inr ⟨hm, "P1", rfl⟩
    · exact Or.inr ⟨hm, "P2", rfl⟩
    · exact Or.inl hm.symm
  · rw [if_neg hm]
    exact Or.inl rfl

/-- Successive `update`s keep a non-empty list of winner modals as it is. -/
theorem updates_winnerModals_of_ne (c : Canvas) (ptss : List (Option ℤ)) :
    ∀ s : Pong, s.winnerModals ≠ [] → (updates c s ptss).winnerModals = s.winnerModals := by
  induction ptss with
  | nil => intro s _; rfl
  | cons pts rest ih =>
    intro s hs
    have h1 : (update c pts s).winnerModals = s.winnerModals := by
      rw [update_winnerModals, if_neg hs]
    have h2 := ih (update c pts s) (by rw [h1]; exact hs)
    simp only [updates, List.foldl_cons] at h2 ⊢
    rw [h2, h1]

/-- Successive `update`s started without a winner modal end with at most one. -/
theorem updates_winnerModals_of_nil (c : Canvas) (ptss : List (Option ℤ)) :
    ∀ s : Pong, s.winnerModals = [] → (updates c s ptss).winnerModals.length ≤ 1 := by
  induction ptss with
  | nil => intro s hs; simp [updates, hs]
  | cons pts rest ih =>
    intro s hs
    rcases update_winnerModals_cases c pts s with h | ⟨-, w, h⟩
    · have h2 := ih (update c pts s) (by rw [h]; exact hs)
      simpa only [updates, List.foldl_cons] using h2
    · have h2 := updates_winnerModals_of_ne c rest (update c pts s) (by rw [h]; simp)
      simp only [updates, List.foldl_cons] at h2 ⊢
      rw [h2, h]
      simp

/-- When neither scoring test holds, `ballWallCollisions` changes no score. -/
theorem ballWallCollisions_no_score (c : Canvas) (s : Pong)
    (hr : ¬ s.ball.posX + s.ball.radius > c.CANVAS_WIDTH) (hl : ¬ s.ball.posX < 0) :
    (ballWallCollisions c s).p1Score = s.p1Score ∧
    (ballWallCollisions c s).p2Score = s.p2Score := by
  simp only [ballWallCollisions, hr, hl, if_false]
  split_ifs <;> exact ⟨rfl, rfl⟩

/-- An `update` entered with the game stopped and the ball horizontally inside the canvas
changes no score. -/
theorem update_no_score (c : Canvas) (pts : Option ℤ) (s : Pong)
    (hstop : s.isGameStart = false) (hin : ballInCanvas c s) :
    (update c pts s).p1Score = s.p1Score ∧ (update c pts s).p2Score = s.p2Score := by
  obtain ⟨-, h1, h2⟩ := update_ball_scores c pts s
  rw [h1, h2]
  have hb : (advanced c s).ball = s.ball := by simp [advanced, hstop]
  have h := ballWallCollisions_no_score c
    { advanced c s with
      ball := { (advanced c s).ball with
        dx := (ballPaddleCollisions (advanced c s)).ball.dx } }
    (by simp only [hb]; exact not_lt.2 hin.2)
    (by simp only [hb]; exact not_lt.2 hin.1)
  exact h

theorem sameSpeed_refl (a : Ball) : Ball.sameSpeed a a := ⟨rfl, rfl, rfl⟩

theorem sameSpeed_trans {a b d : Ball} (h1 : Ball.sameSpeed a b)
    (h2 : Ball.sameSpeed b d) : Ball.sameSpeed a d :=
  ⟨h1.1.trans h2.1, h1.2.1.trans h2.2.1, h1.2.2.trans h2.2.2⟩

theorem move_sameSpeed (b : Ball) : Ball.sameSpeed b.move b := ⟨rfl, rfl, rfl⟩

theorem ballPaddleCollisions_sameSpeed (s : Pong) :
    Ball.sameSpeed (ballPaddleCollisions s).ball s.ball := by
  obtain ⟨b, p1, p2, a1, a2, g, m⟩ := s
  simp only [Ball.sameSpeed, ballPaddleCollisions, hitsP1, hitsP2]
  split_ifs <;> simp

theorem ballWallCollisions_sameSpeed (c : Canvas) (s : Pong) :
    Ball.sameSpeed (ballWallCollisions c s).ball s.ball := by
  obtain ⟨b, p1, p2, a1, a2, g, m⟩ := s
  simp only [Ball.sameSpeed, ballWallCollisions, resetBallPos]
  split_ifs <;> simp

theorem startHandler_sameSpeed (c : Canvas) (r1 r2 : ℚ) (s : Pong) :
    Ball.sameSpeed (startHandler c r1 r2 s).ball s.ball := by
  simp only [Ball.sameSpeed, startHandler, resetBallPos, removeWinnerModal]
  split_ifs <;> simp

theorem resetHandler_sameSpeed (c : Canvas) (s : Pong) :
    Ball.sameSpeed (resetHandler c s).ball s.ball := ⟨rfl, rfl, rfl⟩

theorem update_sameSpeed (c : Canvas) (pts : Option ℤ) (s : Pong) :
    Ball.sameSpeed (update c pts s).ball s.ball := by
  obtain ⟨hb, -, -, -, -⟩ := update_sameGame c pts s
  rw [hb]
  refine sameSpeed_trans (ballWallCollisions_sameSpeed c _)
    (sameSpeed_trans (ballPaddleCollisions_sameSpeed _) ?_)
  unfold advanced
  split_ifs
  · exact move_sameSpeed s.ball
  · exact sameSpeed_refl s.ball

theorem step_sameSpeed (c : Canvas) (s : Pong) (e : Event) :
    Ball.sameSpeed (step c s e).ball s.ball := by
  cases e with
  | start r1 r2 => exact startHandler_sameSpeed c r1 r2 s
  | reset => exact resetHandler_sameSpeed c s
  | keydown key => exact sameSpeed_refl s.ball
  | keyup key => exact sameSpeed_refl s.ball
  | frame pts => exact update_sameSpeed c pts s

theorem run_sameSpeed (c : Canvas) (es : List Event) :
    ∀ s : Pong, Ball.sameSpeed (run c s es).ball s.ball := by
  induction es with
  | nil => intro s; exact sameSpeed_refl s.ball
  | cons e rest ih =>
    intro s
    exact sameSpeed_trans (ih (step c s e)) (step_sameSpeed c s e)

/-- Every event leaves the ball horizontally inside the canvas, when that held before, the
canvas width is at least 0 and the radius is at most half of it. -/
theorem step_ballInCanvas (c : Canvas) (s : Pong) (e : Event) (hW : 0 ≤ c.CANVAS_WIDTH)
    (hr : s.ball.radius ≤ c.CANVAS_WIDTH / 2) (hin : ballInCanvas c s) :
    ballInCanvas c (step c s e) := by
  cases e with
  | start r1 r2 =>
    simp only [ballInCanvas, step, startHandler, resetBallPos, removeWinnerModal]
    constructor <;> linarith
  | reset =>
    simp only [ballInCanvas, step, resetHandler, resetBallPos, removeWinnerModal]
    constructor <;> linarith
  | keydown key => exact hin
  | keyup key => exact hin
  | frame pts =>
    obtain ⟨hb, -, -, -, -⟩ := update_sameGame c pts s
    have hrad : (ballPaddleCollisions (advanced c s)).ball.radius = s.ball.radius := by
      rw [(ballPaddleCollisions_sameSpeed _).2.2]
      unfold advanced Ball.move
      split_ifs <;> rfl
    have h := ballWallCollisions_ballInCanvas c (ballPaddleCollisions (advanced c s)) hW
      (by rw [hrad]; exact hr)
    simp only [ballInCanvas, step] at h ⊢
    rw [hb]
    exact h

theorem run_ballInCanvas (c : Canvas) (hW : 0 ≤ c.CANVAS_WIDTH) (es : List Event) :
    ∀ s : Pong, s.ball.radius ≤ c.CANVAS_WIDTH / 2 → ballInCanvas c s →
      ballInCanvas c (run c s es) := by
  induction es with
  | nil => intro s _ hin; exact hin
  | cons e rest ih =>
    intro s hr hin
    have hrad : (step c s e).ball.radius = s.ball.radius := (step_sameSpeed c s e).2.2
    exact ih (step c s e) (by rw [hrad]; exact hr) (step_ballInCanvas c s e hW hr hin)

/-- No event takes the number of winner modals above one. -/
theorem step_winnerModals_le (c : Canvas) (s : Pong) (e : Event)
    (h : s.winnerModals.length ≤ 1) : (step c s e).winnerModals.length ≤ 1 := by
  cases e with
  | start r1 r2 =>
    have ht : (step c s (.start r1 r2)).winnerModals = s.winnerModals.tail := rfl
    rw [ht, List.length_tail]
    omega
  | reset =>
    have ht : (step c s .reset).winnerModals = s.winnerModals.tail := rfl
    rw [ht, List.length_tail]
    omega
  | keydown key => exact h
  | keyup key => exact h
  | frame pts =>
    rcases update_winnerModals_cases c pts s with h1 | ⟨-, w, h1⟩
    · simp only [step, h1]
      exact h
    · simp only [step, h1]
      simp

theorem run_winnerModals_le (c : Canvas) (es : List Event) :
    ∀ s : Pong, s.winnerModals.length ≤ 1 → (run c s es).winnerModals.length ≤ 1 := by
  induction es with
  | nil => intro s h; exact h
  | cons e rest ih =>
    intro s h
    exact ih (step c s e) (step_winnerModals_le c s e h)

end Pong

/-! ## Scoring at the right wall (C2) -/

/-- C2, as stated, fails: the running game with the ball at `posX = CANVAS_WIDTH - radius`
(790 on the 800-wide canvas) moving left is advanced to `posX = 786` before the wall test,
so nobody scores and the ball is not re-centered. -/
theorem Pong.update_right_wall_counterexample :
    (playing 790 240 (-4) 4 0 0).isGameStart = true ∧
    (playing 790 240 (-4) 4 0 0).ball.posX ≥
      canvas800.CANVAS_WIDTH - (playing 790 240 (-4) 4 0 0).ball.radius ∧
    (Pong.update canvas800 (some 3) (playing 790 240 (-4) 4 0 0)).p1Score = 0 ∧
    (Pong.update canvas800 (some 3) (playing 790 240 (-4) 4 0 0)).ball.posX = 786 := by
  refine ⟨rfl, ?_, ?_, ?_⟩ <;>
  norm_num [Pong.update, playing, Pong.constructor, canvas800, Pong.winCheck,
    Pong.ballPaddleCollisions, Pong.ballWallCollisions, Pong.hitsP1, Pong.hitsP2, Ball.move,
    Paddle.move, Ball.constructor, Paddle.constructor, Pong.resetBallPos,
    Canvas.PADDLE_HEIGHT, Canvas.PADDLE_WIDTH]

/-- C2, amended: in a running game on a canvas of width at least 0, if the ball advanced
by `Ball.move` satisfies `posX + radius > CANVAS_WIDTH`, one `update()` adds exactly 1 to
`p1Score`, leaves `p2Score` unchanged and puts the ball at the canvas center; `dx` is
unchanged when neither paddle test holds for the advanced ball and paddles, and `dy` is
unchanged when `radius ≤ CANVAS_HEIGHT / 2`. -/
theorem Pong.update_right_wall (c : Canvas) (pts : Option ℤ) (s : Pong)
    (hplay : s.isGameStart = true) (hW : 0 ≤ c.CANVAS_WIDTH)
    (hwall : s.ball.posX + s.ball.dx + s.ball.radius > c.CANVAS_WIDTH) :
    (Pong.update c pts s).p1Score = s.p1Score + 1 ∧
    (Pong.update c pts s).p2Score = s.p2Score ∧
    (Pong.update c pts s).ball.posX = c.CANVAS_WIDTH / 2 ∧
    (Pong.update c pts s).ball.posY = c.CANVAS_HEIGHT / 2 ∧
    (¬ Pong.hitsP1 (Pong.advanced c s) → ¬ Pong.hitsP2 (Pong.advanced c s) →
      (Pong.update c pts s).ball.dx = s.ball.dx) ∧
    (s.ball.radius ≤ c.CANVAS_HEIGHT / 2 → (Pong.update c pts s).ball.dy = s.ball.dy) := by
  obtain ⟨hb, -, -, h1, h2⟩ := Pong.update_sameGame c pts s
  rw [hb, h1, h2]
  have hdx := Pong.ballPaddleCollisions_dx (Pong.advanced c s)
  have hw := Pong.ballWallCollisions_dx c (Pong.ballPaddleCollisions (Pong.advanced c s))
  rw [Pong.ballPaddleCollisions_eq] at hw ⊢
  have hr := Pong.ballWallCollisions_right c
    { Pong.advanced c s with
      ball := { (Pong.advanced c s).ball with
        dx := (Pong.ballPaddleCollisions (Pong.advanced c s)).ball.dx } } hW
    (by simpa [Pong.advanced, hplay, Ball.move] using hwall)
  simp only [Pong.advanced, hplay, if_true, Ball.move] at hr hw hdx ⊢
  obtain ⟨r1, r2, r3, r4, r5⟩ := hr
  refine ⟨r1, r2, r3, r4, ?_, r5⟩
  intro n1 n2
  rw [hw.1, hdx, if_neg n1, if_neg n2]

/-- Witness of C2: the ball at `(794, 100)` moving right on `canvas800`, score 2 : 1. -/
theorem Pong.update_right_wall_witness :
    (Pong.update canvas800 (some 3) (playing 794 100 4 4 2 1)).p1Score =
      (playing 794 100 4 4 2 1).p1Score + 1 ∧
    (Pong.update canvas800 (some 3) (playing 794 100 4 4 2 1)).p2Score =
      (playing 794 100 4 4 2 1).p2Score ∧
    (Pong.update canvas800 (some 3) (playing 794 100 4 4 2 1)).ball.posX =
      canvas800.CANVAS_WIDTH / 2 ∧
    (Pong.update canvas800 (some 3) (playing 794 100 4 4 2 1)).ball.posY =
      canvas800.CANVAS_HEIGHT / 2 ∧
    (¬ Pong.hitsP1 (Pong.advanced canvas800 (playing 794 100 4 4 2 1)) →
      ¬ Pong.hitsP2 (Pong.advanced canvas800 (playing 794 100 4 4 2 1)) →
      (Pong.update canvas800 (some 3) (playing 794 100 4 4 2 1)).ball.dx =
        (playing 794 100 4 4 2 1).ball.dx) ∧
    ((playing 794 100 4 4 2 1).ball.radius ≤ canvas800.CANVAS_HEIGHT / 2 →
      (Pong.update canvas800 (some 3) (playing 794 100 4 4 2 1)).ball.dy =
        (playing 794 100 4 4 2 1).ball.dy) :=
  Pong.update_right_wall canvas800 (some 3) (playing 794 100 4 4 2 1) rfl
    (by norm_num [canvas800])
    (by norm_num [canvas800, playing, Ball.constructor])

/-! ## Scoring at the left wall (C3) -/

/-- C3, as stated, fails: the ball at `(8, 168)` with radius 10 has `posX - radius < 0`, yet
`ballWallCollisions`, whose left-wall test is `posX < 0`, leaves `p2Score` and the ball
position unchanged. -/
theorem Pong.ballWallCollisions_left_wall_counterexample :
    (playing 8 168 (-4) 4 0 0).ball.posX - (playing 8 168 (-4) 4 0 0).ball.radius < 0 ∧
    (Pong.ballWallCollisions canvas800 (playing 8 168 (-4) 4 0 0)).p2Score = 0 ∧
    (Pong.ballWallCollisions canvas800 (playing 8 168 (-4) 4 0 0)).ball.posX = 8 ∧
    (Pong.ballWallCollisions canvas800 (playing 8 168 (-4) 4 0 0)).ball.posY = 168 := by
  refine ⟨?_, ?_, ?_, ?_⟩ <;>
  norm_num [playing, Pong.constructor, canvas800, Pong.ballWallCollisions, Ball.constructor,
    Pong.resetBallPos]

/-- C3, amended: for a state at entry to `ballWallCollisions` in which the right-wall test
`posX + radius > CANVAS_WIDTH` does not hold, the left-wall rule tests `posX` alone: when
`ball.posX < 0`, `p2Score` is raised by exactly 1, `p1Score` is unchanged and the ball is
re-centered; when `ball.posX ≥ 0`, both scores and the ball position are unchanged. -/
theorem Pong.ballWallCollisions_left_wall (c : Canvas) (s : Pong)
    (hr : ¬ s.ball.posX + s.ball.radius > c.CANVAS_WIDTH) :
    (s.ball.posX < 0 →
      (Pong.ballWallCollisions c s).p2Score = s.p2Score + 1 ∧
      (Pong.ballWallCollisions c s).p1Score = s.p1Score ∧
      (Pong.ballWallCollisions c s).ball.posX = c.CANVAS_WIDTH / 2 ∧
      (Pong.ballWallCollisions c s).ball.posY = c.CANVAS_HEIGHT / 2) ∧
    (¬ s.ball.posX < 0 →
      (Pong.ballWallCollisions c s).p2Score = s.p2Score ∧
      (Pong.ballWallCollisions c s).p1Score = s.p1Score ∧
      (Pong.ballWallCollisions c s).ball.posX = s.ball.posX ∧
      (Pong.ballWallCollisions c s).ball.posY = s.ball.posY) := by
  constructor
  · intro hl
    exact Pong.ballWallCollisions_left c s hr hl
  · intro hl
    simp only [Pong.ballWallCollisions, hr, hl, if_false]
    split_ifs <;> exact ⟨rfl, rfl, rfl, rfl⟩

/-- Witness of C3: the ball at `(-4, 168)` on `canvas800` scores for P2; the ball at
`(8, 168)` does not. -/
theorem Pong.ballWallCollisions_left_wall_witness :
    ((Pong.ballWallCollisions canvas800 (playing (-4) 168 (-4) 4 0 0)).p2Score =
        (playing (-4) 168 (-4) 4 0 0).p2Score + 1 ∧
      (Pong.ballWallCollisions canvas800 (playing (-4) 168 (-4) 4 0 0)).p1Score =
        (playing (-4) 168 (-4) 4 0 0).p1Score ∧
      (Pong.ballWallCollisions canvas800 (playing (-4) 168 (-4) 4 0 0)).ball.posX =
        canvas800.CANVAS_WIDTH / 2 ∧
      (Pong.ballWallCollisions canvas800 (playing (-4) 168 (-4) 4 0 0)).ball.posY =
        canvas800.CANVAS_HEIGHT / 2) ∧
    ((Pong.ballWallCollisions canvas800 (playing 8 168 (-4) 4 0 0)).p2Score =
        (playing 8 168 (-4) 4 0 0).p2Score ∧
      (Pong.ballWallCollisions canvas800 (playing 8 168 (-4) 4 0 0)).p1Score =
        (playing 8 168 (-4) 4 0 0).p1Score ∧
      (Pong.ballWallCollisions canvas800 (playing 8 168 (-4) 4 0 0)).ball.posX =
        (playing 8 168 (-4) 4 0 0).ball.posX ∧
      (Pong.ballWallCollisions canvas800 (playing 8 168 (-4) 4 0 0)).ball.posY =
        (playing 8 168 (-4) 4 0 0).ball.posY) :=
  ⟨(Pong.ballWallCollisions_left_wall canvas800 (playing (-4) 168 (-4) 4 0 0)
      (by norm_num [playing, Ball.constructor, canvas800])).1
    (by norm_num [playing, Ball.constructor]),
   (Pong.ballWallCollisions_left_wall canvas800 (playing 8 168 (-4) 4 0 0)
      (by norm_num [playing, Ball.constructor, canvas800])).2
    (by norm_num [playing, Ball.constructor])⟩

/-! ## A frame before the game is started (C4) -/

/-- C4, as stated, fails: in the constructor's state on a 30 x 18 canvas the game is not
running and no win condition holds, yet one `update()` negates `ball.dy` (the resting ball
of radius 10 at `y = 9` passes the bottom-wall test of `ballWallCollisions`). -/
theorem Pong.update_not_started_counterexample :
    (Pong.constructor canvas30).isGameStart = false ∧
    ¬ ((Pong.constructor canvas30).p1Score > (Pong.constructor canvas30).p2Score ∧
        some (3 : ℤ) = some (Pong.constructor canvas30).p1Score) ∧
    ¬ ((Pong.constructor canvas30).p2Score > (Pong.constructor canvas30).p1Score ∧
        some (3 : ℤ) = some (Pong.constructor canvas30).p2Score) ∧
    (Pong.constructor canvas30).ball.dy = 4 ∧
    (Pong.update canvas30 (some 3) (Pong.constructor canvas30)).ball.dy = -4 := by
  refine ⟨rfl, ?_, ?_, rfl, ?_⟩ <;>
  norm_num [Pong.update, Pong.constructor, canvas30, Pong.winCheck,
    Pong.ballPaddleCollisions, Pong.ballWallCollisions, Pong.hitsP1, Pong.hitsP2, Ball.move,
    Paddle.move, Ball.constructor, Paddle.constructor, Pong.resetBallPos,
    Canvas.PADDLE_HEIGHT, Canvas.PADDLE_WIDTH]

/-- C4, amended: when `isGameStart` is false at entry, `update()` advances both paddles
exactly as `Paddle.move` does and skips `Ball.move`, but `ballPaddleCollisions` and
`ballWallCollisions` still run on the resting ball; the ball (position and velocity) and
both scores are unchanged when none of their tests holds for the resting ball and the
advanced paddles. -/
theorem Pong.update_not_started (c : Canvas) (pts : Option ℤ) (s : Pong)
    (hstop : s.isGameStart = false) :
    (Pong.update c pts s).p1 = s.p1.move c ∧
    (Pong.update c pts s).p2 = s.p2.move c ∧
    Pong.sameGame (Pong.update c pts s)
      (Pong.ballWallCollisions c
        (Pong.ballPaddleCollisions { s with p1 := s.p1.move c, p2 := s.p2.move c })) ∧
    (¬ Pong.hitsP1 { s with p1 := s.p1.move c, p2 := s.p2.move c } →
     ¬ Pong.hitsP2 { s with p1 := s.p1.move c, p2 := s.p2.move c } →
     ¬ s.ball.posX + s.ball.radius > c.CANVAS_WIDTH →
     ¬ s.ball.posX < 0 →
     ¬ (s.ball.posY + s.ball.radius > c.CANVAS_HEIGHT ∨ s.ball.posY - s.ball.radius < 0) →
     (Pong.update c pts s).ball = s.ball ∧
     (Pong.update c pts s).p1Score = s.p1Score ∧
     (Pong.update c pts s).p2Score = s.p2Score) := by
  have hadv : Pong.advanced c s = { s with p1 := s.p1.move c, p2 := s.p2.move c } := by
    simp [Pong.advanced, hstop]
  have hsame := Pong.update_sameGame c pts s
  rw [hadv] at hsame
  refine ⟨(Pong.update_paddles c pts s).1, (Pong.update_paddles c pts s).2, hsame, ?_⟩
  intro n1 n2 n3 n4 n5
  obtain ⟨hb, -, -, h1, h2⟩ := hsame
  rw [hb, h1, h2, Pong.ballPaddleCollisions_idle _ n1 n2,
    Pong.ballWallCollisions_idle c { s with p1 := s.p1.move c, p2 := s.p2.move c } n3 n4 n5]
  exact ⟨rfl, rfl, rfl⟩

/-- Witness of C4: the constructor's state on `canvas800`, where no test holds. -/
theorem Pong.update_not_started_witness :
    (Pong.update canvas800 (some 3) (Pong.constructor canvas800)).p1 =
      (Pong.constructor canvas800).p1.move canvas800 ∧
    (Pong.update canvas800 (some 3) (Pong.constructor canvas800)).ball =
      (Pong.constructor canvas800).ball ∧
    (Pong.update canvas800 (some 3) (Pong.constructor canvas800)).p1Score = 0 ∧
    (Pong.update canvas800 (some 3) (Pong.constructor canvas800)).p2Score = 0 :=
  ⟨(Pong.update_not_started canvas800 (some 3) (Pong.constructor canvas800) rfl).1,
   (Pong.update_not_started canvas800 (some 3) (Pong.constructor canvas800) rfl).2.2.2
    (by norm_num [Pong.hitsP1, Pong.constructor, canvas800, Ball.constructor,
      Paddle.constructor, Paddle.move, Canvas.PADDLE_HEIGHT, Canvas.PADDLE_WIDTH])
    (by norm_num [Pong.hitsP2, Pong.constructor, canvas800, Ball.constructor,
      Paddle.constructor, Paddle.move, Canvas.PADDLE_HEIGHT, Canvas.PADDLE_WIDTH])
    (by norm_num [Pong.constructor, canvas800, Ball.constructor])
    (by norm_num [Pong.constructor, canvas800, Ball.constructor])
    (by norm_num [Pong.constructor, canvas800, Ball.constructor])⟩

/-! ## Win evaluation and scoring within one frame (C5) -/

/-- C5, as stated, fails: with `pointsToWin = 3` and the score 2 : 2, the frame in which
the ball crosses the right wall raises `p1Score` to 3, above `p2Score = 2`, and
`isGameStart` is still true at the end of that `update()`. -/
theorem Pong.update_win_counterexample :
    (playing 794 100 4 4 2 2).isGameStart = true ∧
    (playing 794 100 4 4 2 2).p1Score = 2 ∧
    (Pong.update canvas800 (some 3) (playing 794 100 4 4 2 2)).p1Score = 3 ∧
    (Pong.update canvas800 (some 3) (playing 794 100 4 4 2 2)).p2Score = 2 ∧
    (Pong.update canvas800 (some 3) (playing 794 100 4 4 2 2)).isGameStart = true := by
  refine ⟨rfl, rfl, ?_, ?_, ?_⟩ <;>
  norm_num [Pong.update, playing, Pong.constructor, canvas800, Pong.winCheck,
    Pong.ballPaddleCollisions, Pong.ballWallCollisions, Pong.hitsP1, Pong.hitsP2, Ball.move,
    Paddle.move, Ball.constructor, Paddle.constructor, Pong.resetBallPos,
    Canvas.PADDLE_HEIGHT, Canvas.PADDLE_WIDTH]

/-- C5, amended: in a running game, if the scoring performed inside one `update()` raises
one side's score to `pointsToWin` while it is strictly greater than the other side's score,
then `isGameStart` is still true at the end of that `update()` and is false at the end of
the next `update()` with the same `pointsToWin` (the win checks run before the scoring
within a frame). -/
theorem Pong.update_win_next_frame (c : Canvas) (pts : ℤ) (s : Pong)
    (hplay : s.isGameStart = true)
    (hraise :
      (s.p1Score < (Pong.update c (some pts) s).p1Score ∧
        (Pong.update c (some pts) s).p1Score = pts ∧
        (Pong.update c (some pts) s).p1Score > (Pong.update c (some pts) s).p2Score) ∨
      (s.p2Score < (Pong.update c (some pts) s).p2Score ∧
        (Pong.update c (some pts) s).p2Score = pts ∧
        (Pong.update c (some pts) s).p2Score > (Pong.update c (some pts) s).p1Score)) :
    (Pong.update c (some pts) s).isGameStart = true ∧
    (Pong.update c (some pts) (Pong.update c (some pts) s)).isGameStart = false := by
  obtain ⟨h1, h2⟩ := Pong.update_scores c (some pts) s
  constructor
  · rw [Pong.update_isGameStart, hplay, if_neg]
    simp only [Option.some.injEq]
    rintro (⟨-, h⟩ | ⟨-, h⟩) <;> omega
  · rw [Pong.update_isGameStart, if_pos]
    simp only [Option.some.injEq]
    rcases hraise with ⟨-, h, h'⟩ | ⟨-, h, h'⟩
    · exact Or.inl ⟨h', h.symm⟩
    · exact Or.inr ⟨h', h.symm⟩

/-- Witness of C5: `pointsToWin = 3`, score 2 : 2, the ball about to cross the right wall. -/
theorem Pong.update_win_next_frame_witness :
    (Pong.update canvas800 (some 3) (playing 794 100 4 4 2 2)).isGameStart = true ∧
    (Pong.update canvas800 (some 3)
      (Pong.update canvas800 (some 3) (playing 794 100 4 4 2 2))).isGameStart = false :=
  Pong.update_win_next_frame canvas800 3 (playing 794 100 4 4 2 2) rfl
    (Or.inl (by
      norm_num [Pong.update, playing, Pong.constructor, canvas800, Pong.winCheck,
        Pong.ballPaddleCollisions, Pong.ballWallCollisions, Pong.hitsP1, Pong.hitsP2,
        Ball.move, Paddle.move, Ball.constructor, Paddle.constructor, Pong.resetBallPos,
        Canvas.PADDLE_HEIGHT, Canvas.PADDLE_WIDTH]))

/-! ## Paddle test and wall test in the same frame (C6) -/

/-- C6, as stated, fails: the ball advanced to `(795, 244)` passes both the right paddle's
test and the right-wall test; `update()` negates `dx` and also scores for P1 and re-centers
the ball. -/
theorem Pong.update_paddle_and_wall_counterexample :
    (playing 791 240 4 4 0 0).isGameStart = true ∧
    Pong.hitsP2 (Pong.advanced canvas800 (playing 791 240 4 4 0 0)) ∧
    (Pong.advanced canvas800 (playing 791 240 4 4 0 0)).ball.posX +
      (Pong.advanced canvas800 (playing 791 240 4 4 0 0)).ball.radius >
      canvas800.CANVAS_WIDTH ∧
    (Pong.update canvas800 (some 3) (playing 791 240 4 4 0 0)).ball.dx = -4 ∧
    (Pong.update canvas800 (some 3) (playing 791 240 4 4 0 0)).p1Score = 1 ∧
    (Pong.update canvas800 (some 3) (playing 791 240 4 4 0 0)).ball.posX = 400 ∧
    (Pong.update canvas800 (some 3) (playing 791 240 4 4 0 0)).ball.posY = 240 := by
  refine ⟨rfl, ?_, ?_, ?_, ?_, ?_, ?_⟩ <;>
  norm_num [Pong.update, Pong.advanced, playing, Pong.constructor, canvas800, Pong.winCheck,
    Pong.ballPaddleCollisions, Pong.ballWallCollisions, Pong.hitsP1, Pong.hitsP2, Ball.move,
    Paddle.move, Ball.constructor, Paddle.constructor, Pong.resetBallPos,
    Canvas.PADDLE_HEIGHT, Canvas.PADDLE_WIDTH]

/-- C6, amended: in a running game on a canvas of width at least 0, when the advanced ball
passes one paddle's test (and not the other paddle's) and that side's wall test
(`posX + radius > CANVAS_WIDTH` on the right, `posX < 0` on the left), `update()` does
both: `dx` is negated, and the wall rule scores for the other player and re-centers the
ball. -/
theorem Pong.update_paddle_and_wall (c : Canvas) (pts : Option ℤ) (s : Pong)
    (hW : 0 ≤ c.CANVAS_WIDTH) :
    (Pong.hitsP2 (Pong.advanced c s) → ¬ Pong.hitsP1 (Pong.advanced c s) →
      (Pong.advanced c s).ball.posX + (Pong.advanced c s).ball.radius > c.CANVAS_WIDTH →
      (Pong.update c pts s).ball.dx = -s.ball.dx ∧
      (Pong.update c pts s).p1Score = s.p1Score + 1 ∧
      (Pong.update c pts s).p2Score = s.p2Score ∧
      (Pong.update c pts s).ball.posX = c.CANVAS_WIDTH / 2 ∧
      (Pong.update c pts s).ball.posY = c.CANVAS_HEIGHT / 2) ∧
    (Pong.hitsP1 (Pong.advanced c s) → ¬ Pong.hitsP2 (Pong.advanced c s) →
      (Pong.advanced c s).ball.posX < 0 →
      ¬ (Pong.advanced c s).ball.posX + (Pong.advanced c s).ball.radius > c.CANVAS_WIDTH →
      (Pong.update c pts s).ball.dx = -s.ball.dx ∧
      (Pong.update c pts s).p2Score = s.p2Score + 1 ∧
      (Pong.update c pts s).p1Score = s.p1Score ∧
      (Pong.update c pts s).ball.posX = c.CANVAS_WIDTH / 2 ∧
      (Pong.update c pts s).ball.posY = c.CANVAS_HEIGHT / 2) := by
  obtain ⟨hb, h1, h2⟩ := Pong.update_ball_scores c pts s
  have hdx := Pong.update_dx c pts s
  rw [(Pong.advanced_ball_dx c s).1] at hdx
  constructor
  · intro p2 np1 hw
    obtain ⟨r1, r2, r3, r4, -⟩ := Pong.ballWallCollisions_right c
      { Pong.advanced c s with
        ball := { (Pong.advanced c s).ball with
          dx := (Pong.ballPaddleCollisions (Pong.advanced c s)).ball.dx } } hW hw
    rw [hb, h1, h2]
    refine ⟨?_, r1, r2, r3, r4⟩
    rw [← hb, hdx, if_neg np1, if_pos p2]
  · intro p1 np2 hl hr
    obtain ⟨r1, r2, r3, r4⟩ := Pong.ballWallCollisions_left c
      { Pong.advanced c s with
        ball := { (Pong.advanced c s).ball with
          dx := (Pong.ballPaddleCollisions (Pong.advanced c s)).ball.dx } } hr hl
    rw [hb, h1, h2]
    refine ⟨?_, r1, r2, r3, r4⟩
    rw [← hb, hdx, if_pos p1, if_neg np2]

/-- Witness of C6: the ball advanced to `(795, 244)` at the right paddle and wall, and the
ball advanced to `(-2, 244)` at the left paddle and wall. -/
theorem Pong.update_paddle_and_wall_witness :
    ((Pong.update canvas800 (some 3) (playing 791 240 4 4 0 0)).ball.dx =
        -(playing 791 240 4 4 0 0).ball.dx ∧
      (Pong.update canvas800 (some 3) (playing 791 240 4 4 0 0)).p1Score =
        (playing 791 240 4 4 0 0).p1Score + 1 ∧
      (Pong.update canvas800 (some 3) (playing 791 240 4 4 0 0)).p2Score =
        (playing 791 240 4 4 0 0).p2Score ∧
      (Pong.update canvas800 (some 3) (playing 791 240 4 4 0 0)).ball.posX =
        canvas800.CANVAS_WIDTH / 2 ∧
      (Pong.update canvas800 (some 3) (playing 791 240 4 4 0 0)).ball.posY =
        canvas800.CANVAS_HEIGHT / 2) ∧
    ((Pong.update canvas800 (some 3) (playing 2 240 (-4) 4 0 0)).ball.dx =
        -(playing 2 240 (-4) 4 0 0).ball.dx ∧
      (Pong.update canvas800 (some 3) (playing 2 240 (-4) 4 0 0)).p2Score =
        (playing 2 240 (-4) 4 0 0).p2Score + 1 ∧
      (Pong.update canvas800 (some 3) (playing 2 240 (-4) 4 0 0)).p1Score =
        (playing 2 240 (-4) 4 0 0).p1Score ∧
      (Pong.update canvas800 (some 3) (playing 2 240 (-4) 4 0 0)).ball.posX =
        canvas800.CANVAS_WIDTH / 2 ∧
      (Pong.update canvas800 (some 3) (playing 2 240 (-4) 4 0 0)).ball.posY =
        canvas800.CANVAS_HEIGHT / 2) :=
  ⟨(Pong.update_paddle_and_wall canvas800 (some 3) (playing 791 240 4 4 0 0)
      (by norm_num [canvas800])).1
    (by norm_num [Pong.hitsP2, Pong.advanced, playing, Pong.constructor, canvas800, Ball.move,
      Paddle.move, Ball.constructor, Paddle.constructor, Canvas.PADDLE_HEIGHT,
      Canvas.PADDLE_WIDTH])
    (by norm_num [Pong.hitsP1, Pong.advanced, playing, Pong.constructor, canvas800, Ball.move,
      Paddle.move, Ball.constructor, Paddle.constructor, Canvas.PADDLE_HEIGHT,
      Canvas.PADDLE_WIDTH])
    (by norm_num [Pong.advanced, playing, Pong.constructor, canvas800, Ball.move,
      Ball.constructor]),
   (Pong.update_paddle_and_wall canvas800 (some 3) (playing 2 240 (-4) 4 0 0)
      (by norm_num [canvas800])).2
    (by norm_num [Pong.hitsP1, Pong.advanced, playing, Pong.constructor, canvas800, Ball.move,
      Paddle.move, Ball.constructor, Paddle.constructor, Canvas.PADDLE_HEIGHT,
      Canvas.PADDLE_WIDTH])
    (by norm_num [Pong.hitsP2, Pong.advanced, playing, Pong.constructor, canvas800, Ball.move,
      Paddle.move, Ball.constructor, Paddle.constructor, Canvas.PADDLE_HEIGHT,
      Canvas.PADDLE_WIDTH])
    (by norm_num [Pong.advanced, playing, Pong.constructor, canvas800, Ball.move,
      Ball.constructor])
    (by norm_num [Pong.advanced, playing, Pong.constructor, canvas800, Ball.move,
      Ball.constructor])⟩

/-! ## The Reset and Start handlers (C7, C8) -/

/-- C7: whatever the prior state, after the Reset handler both scores are 0, both paddles
have `posY = CANVAS_HEIGHT / 2 - PADDLE_HEIGHT / 2`, the ball is at the canvas center and
`isGameStart` is false. -/
theorem Pong.resetHandler_resets (c : Canvas) (s : Pong) :
    (Pong.resetHandler c s).p1Score = 0 ∧
    (Pong.resetHandler c s).p2Score = 0 ∧
    (Pong.resetHandler c s).p1.posY = c.CANVAS_HEIGHT / 2 - c.PADDLE_HEIGHT / 2 ∧
    (Pong.resetHandler c s).p2.posY = c.CANVAS_HEIGHT / 2 - c.PADDLE_HEIGHT / 2 ∧
    (Pong.resetHandler c s).ball.posX = c.CANVAS_WIDTH / 2 ∧
    (Pong.resetHandler c s).ball.posY = c.CANVAS_HEIGHT / 2 ∧
    (Pong.resetHandler c s).isGameStart = false :=
  ⟨rfl, rfl, rfl, rfl, rfl, rfl, rfl⟩

/-- C8, the code at the failing input: after the Start handler in the constructor's state
the ball's speed field `velocity` (documented as the speed of the ball) is 6, while
`|dx| = |dy| = 4`. -/
theorem Pong.startHandler_ignores_velocity :
    (Pong.startHandler canvas800 (7 / 10) (2 / 10) (Pong.constructor canvas800)).ball.velocity
      = 6 ∧
    |(Pong.startHandler canvas800 (7 / 10) (2 / 10) (Pong.constructor canvas800)).ball.dx|
      = 4 ∧
    |(Pong.startHandler canvas800 (7 / 10) (2 / 10) (Pong.constructor canvas800)).ball.dy|
      = 4 := by
  refine ⟨rfl, ?_, ?_⟩ <;>
  norm_num [Pong.startHandler, Pong.constructor, Pong.resetBallPos, Pong.removeWinnerModal,
    Ball.constructor]

/-- What the Start handler does do: whatever the prior state and the two random numbers,
after it `isGameStart` is true and `|ball.dx|`, `|ball.dy|` are what they were before (the
handler only chooses the signs; the field `velocity` is not read). -/
theorem Pong.startHandler_keeps_speed (c : Canvas) (r1 r2 : ℚ) (s : Pong) :
    (Pong.startHandler c r1 r2 s).isGameStart = true ∧
    |(Pong.startHandler c r1 r2 s).ball.dx| = |s.ball.dx| ∧
    |(Pong.startHandler c r1 r2 s).ball.dy| = |s.ball.dy| := by
  refine ⟨rfl, ?_, ?_⟩ <;>
    simp only [Pong.startHandler, Pong.resetBallPos, Pong.removeWinnerModal] <;>
    split_ifs <;> simp

/-! ## Top and bottom walls (C9) -/

/-- C9, as stated, fails: a ball touching the bottom wall that also passes the right-wall
test is re-centered before the vertical test, and `dy` is not negated. -/
theorem Pong.ballWallCollisions_vertical_counterexample :
    ((playing 795 475 4 4 0 0).ball.posY + (playing 795 475 4 4 0 0).ball.radius >
        canvas800.CANVAS_HEIGHT ∨
      (playing 795 475 4 4 0 0).ball.posY - (playing 795 475 4 4 0 0).ball.radius < 0) ∧
    (playing 795 475 4 4 0 0).ball.dy = 4 ∧
    (Pong.ballWallCollisions canvas800 (playing 795 475 4 4 0 0)).ball.dy = 4 := by
  refine ⟨?_, rfl, ?_⟩ <;>
  norm_num [playing, Pong.constructor, canvas800, Pong.ballWallCollisions, Ball.constructor,
    Pong.resetBallPos]

/-- C9, amended: when the ball at entry to `ballWallCollisions` touches a vertical bound
(`posY + radius > CANVAS_HEIGHT` or `posY - radius < 0`) and passes neither scoring test
(`posX + radius > CANVAS_WIDTH`, `posX < 0`), `ballWallCollisions` negates `ball.dy` and
leaves `ball.dx` unchanged. -/
theorem Pong.ballWallCollisions_vertical (c : Canvas) (s : Pong)
    (hv : s.ball.posY + s.ball.radius > c.CANVAS_HEIGHT ∨ s.ball.posY - s.ball.radius < 0)
    (hr : ¬ s.ball.posX + s.ball.radius > c.CANVAS_WIDTH) (hl : ¬ s.ball.posX < 0) :
    (Pong.ballWallCollisions c s).ball.dy = -s.ball.dy ∧
    (Pong.ballWallCollisions c s).ball.dx = s.ball.dx := by
  simp only [Pong.ballWallCollisions, hr, hl, hv, if_true, if_false, and_self]

/-- Witness of C9: the ball at `(400, 475)` on `canvas800` touches the bottom wall. -/
theorem Pong.ballWallCollisions_vertical_witness :
    (Pong.ballWallCollisions canvas800 (playing 400 475 4 4 0 0)).ball.dy =
      -(playing 400 475 4 4 0 0).ball.dy ∧
    (Pong.ballWallCollisions canvas800 (playing 400 475 4 4 0 0)).ball.dx =
      (playing 400 475 4 4 0 0).ball.dx :=
  Pong.ballWallCollisions_vertical canvas800 (playing 400 475 4 4 0 0)
    (Or.inl (by norm_num [playing, Ball.constructor, canvas800]))
    (by norm_num [playing, Ball.constructor, canvas800])
    (by norm_num [playing, Ball.constructor])

/-! ## Bounce off the left paddle (C10) -/

/-- C10, as stated, fails, in two ways. The ball at `(p1.posX + p1.w - 1, 240) = (25, 240)`,
vertically within the left paddle and moving right, is advanced to `x = 29` before the
paddle test, and `dx` keeps its sign. The ball at `(25, 296)` moving left and down is
advanced to `(21, 300)`, below the paddle's bottom `297.6`, and `dx` keeps its sign. -/
theorem Pong.update_left_paddle_counterexample :
    ((playing 25 240 4 4 0 0).isGameStart = true ∧
      (playing 25 240 4 4 0 0).ball.posX =
        (playing 25 240 4 4 0 0).p1.posX + (playing 25 240 4 4 0 0).p1.w - 1 ∧
      (playing 25 240 4 4 0 0).p1.posY < (playing 25 240 4 4 0 0).ball.posY ∧
      (playing 25 240 4 4 0 0).ball.posY <
        (playing 25 240 4 4 0 0).p1.posY + (playing 25 240 4 4 0 0).p1.h ∧
      (playing 25 240 4 4 0 0).ball.dx = 4 ∧
      (Pong.update canvas800 (some 3) (playing 25 240 4 4 0 0)).ball.dx = 4) ∧
    ((playing 25 296 (-4) 4 0 0).isGameStart = true ∧
      (playing 25 296 (-4) 4 0 0).ball.posX =
        (playing 25 296 (-4) 4 0 0).p1.posX + (playing 25 296 (-4) 4 0 0).p1.w - 1 ∧
      (playing 25 296 (-4) 4 0 0).p1.posY < (playing 25 296 (-4) 4 0 0).ball.posY ∧
      (playing 25 296 (-4) 4 0 0).ball.posY <
        (playing 25 296 (-4) 4 0 0).p1.posY + (playing 25 296 (-4) 4 0 0).p1.h ∧
      (playing 25 296 (-4) 4 0 0).ball.dx = -4 ∧
      (Pong.update canvas800 (some 3) (playing 25 296 (-4) 4 0 0)).ball.dx = -4) := by
  refine ⟨⟨rfl, ?_, ?_, ?_, rfl, ?_⟩, ⟨rfl, ?_, ?_, ?_, rfl, ?_⟩⟩ <;>
  norm_num [Pong.update, playing, Pong.constructor, canvas800, Pong.winCheck,
    Pong.ballPaddleCollisions, Pong.ballWallCollisions, Pong.hitsP1, Pong.hitsP2, Ball.move,
    Paddle.move, Ball.constructor, Paddle.constructor, Pong.resetBallPos,
    Canvas.PADDLE_HEIGHT, Canvas.PADDLE_WIDTH]

/-- C10, amended: in a running game with the ball center at `(p1.posX + p1.w - 1, y)` and
the right paddle's test not holding for the advanced ball, one `update()` flips the sign
of `ball.dx` when `dx < 1` (the advanced ball is still left of the paddle's right edge) and
`y + dy` is strictly between the top and the bottom of the left paddle advanced by
`Paddle.move`; and for `dx ≠ 0` the sign is flipped only then. -/
theorem Pong.update_left_paddle_bounce (c : Canvas) (pts : Option ℤ) (s : Pong)
    (hplay : s.isGameStart = true)
    (hx : s.ball.posX = s.p1.posX + s.p1.w - 1)
    (hp2 : ¬ Pong.hitsP2 (Pong.advanced c s)) :
    (s.ball.dx < 1 →
      (s.p1.move c).posY < s.ball.posY + s.ball.dy →
      s.ball.posY + s.ball.dy < (s.p1.move c).posY + s.p1.h →
      (Pong.update c pts s).ball.dx = -s.ball.dx) ∧
    (s.ball.dx ≠ 0 → (Pong.update c pts s).ball.dx = -s.ball.dx →
      s.ball.dx < 1 ∧
      (s.p1.move c).posY < s.ball.posY + s.ball.dy ∧
      s.ball.posY + s.ball.dy < (s.p1.move c).posY + s.p1.h) := by
  have hiff := Pong.hitsP1_advanced c s hplay
  have hdx := Pong.update_dx c pts s
  rw [if_neg hp2, if_neg hp2, (Pong.advanced_ball_dx c s).1] at hdx
  constructor
  · intro hlt htop hbot
    have h1 : Pong.hitsP1 (Pong.advanced c s) := hiff.2 ⟨by linarith, htop, hbot⟩
    rw [hdx, if_pos h1]
  · intro hne hflip
    by_cases h1 : Pong.hitsP1 (Pong.advanced c s)
    · obtain ⟨ha, hb, hc⟩ := hiff.1 h1
      exact ⟨by linarith, hb, hc⟩
    · rw [hdx, if_neg h1] at hflip
      exact absurd (by linarith : s.ball.dx = 0) hne

/-- Witness of C10: the ball at `(25, 240)` moving left on `canvas800` is advanced to
`(21, 244)`, inside the left paddle, and `dx` is flipped. -/
theorem Pong.update_left_paddle_bounce_witness :
    (playing 25 240 (-4) 4 0 0).ball.posX =
      (playing 25 240 (-4) 4 0 0).p1.posX + (playing 25 240 (-4) 4 0 0).p1.w - 1 ∧
    (Pong.update canvas800 (some 3) (playing 25 240 (-4) 4 0 0)).ball.dx =
      -(playing 25 240 (-4) 4 0 0).ball.dx :=
  ⟨by norm_num [playing, Pong.constructor, canvas800, Ball.constructor, Paddle.constructor,
      Canvas.PADDLE_WIDTH],
   (Pong.update_left_paddle_bounce canvas800 (some 3) (playing 25 240 (-4) 4 0 0) rfl
    (by norm_num [playing, Pong.constructor, canvas800, Ball.constructor, Paddle.constructor,
      Canvas.PADDLE_WIDTH])
    (by norm_num [Pong.hitsP2, Pong.advanced, playing, Pong.constructor, canvas800, Ball.move,
      Paddle.move, Ball.constructor, Paddle.constructor, Canvas.PADDLE_HEIGHT,
      Canvas.PADDLE_WIDTH])).1
    (by norm_num [playing, Ball.constructor])
    (by norm_num [playing, Pong.constructor, canvas800, Ball.constructor, Paddle.constructor,
      Paddle.move, Canvas.PADDLE_HEIGHT])
    (by norm_num [playing, Pong.constructor, canvas800, Ball.constructor, Paddle.constructor,
      Paddle.move, Canvas.PADDLE_HEIGHT])⟩

/-! ## What the Start handler leaves alone (C11) -/

/-- C11: whatever the prior state and the random numbers, the Start handler leaves
`p1Score`, `p2Score`, both paddles' `posY` and the ball's `radius` unchanged, and puts the
ball at the canvas center `(CANVAS_WIDTH / 2, CANVAS_HEIGHT / 2)`. -/
theorem Pong.startHandler_frame (c : Canvas) (r1 r2 : ℚ) (s : Pong) :
    (Pong.startHandler c r1 r2 s).p1Score = s.p1Score ∧
    (Pong.startHandler c r1 r2 s).p2Score = s.p2Score ∧
    (Pong.startHandler c r1 r2 s).p1.posY = s.p1.posY ∧
    (Pong.startHandler c r1 r2 s).p2.posY = s.p2.posY ∧
    (Pong.startHandler c r1 r2 s).ball.radius = s.ball.radius ∧
    (Pong.startHandler c r1 r2 s).ball.posX = c.CANVAS_WIDTH / 2 ∧
    (Pong.startHandler c r1 r2 s).ball.posY = c.CANVAS_HEIGHT / 2 :=
  ⟨rfl, rfl, rfl, rfl, rfl, rfl, rfl⟩

/-! ## The two paddle tests (C12) -/

/-- C12: `ballPaddleCollisions` evaluates the left test `hitsP1` and the right test
`hitsP2` on the same ball position: `dx` is negated when exactly one of them holds and is
unchanged when neither or both hold; the ball position, `dy`, the radius, the paddles and
the scores are unchanged. -/
theorem Pong.ballPaddleCollisions_spec (s : Pong) :
    (Pong.ballPaddleCollisions s).ball.dx =
      (if (Pong.hitsP1 s ∧ ¬ Pong.hitsP2 s) ∨ (¬ Pong.hitsP1 s ∧ Pong.hitsP2 s)
        then -s.ball.dx else s.ball.dx) ∧
    (Pong.ballPaddleCollisions s).ball.posX = s.ball.posX ∧
    (Pong.ballPaddleCollisions s).ball.posY = s.ball.posY ∧
    (Pong.ballPaddleCollisions s).ball.dy = s.ball.dy ∧
    (Pong.ballPaddleCollisions s).ball.radius = s.ball.radius ∧
    (Pong.ballPaddleCollisions s).p1 = s.p1 ∧
    (Pong.ballPaddleCollisions s).p2 = s.p2 ∧
    (Pong.ballPaddleCollisions s).p1Score = s.p1Score ∧
    (Pong.ballPaddleCollisions s).p2Score = s.p2Score := by
  refine ⟨?_, ?_⟩
  · rw [Pong.ballPaddleCollisions_dx]
    by_cases h1 : Pong.hitsP1 s <;> by_cases h2 : Pong.hitsP2 s <;> simp [h1, h2]
  · rw [Pong.ballPaddleCollisions_eq]
    exact ⟨rfl, rfl, rfl, rfl, rfl, rfl, rfl, rfl⟩

/-! ## The order of the two clamps (C14) -/

/-- C14: for a paddle with `h ≤ CANVAS_HEIGHT`, any `posY` and any `dy`, applying the lower
clamp before the upper clamp gives the same paddle (the same final `posY`) as
`Paddle.move`, which applies the upper clamp first. -/
theorem Paddle.move_clamps_commute (c : Canvas) (p : Paddle) (hle : p.h ≤ c.CANVAS_HEIGHT) :
    (p.moveLowerFirst c).posY = (p.move c).posY ∧ p.moveLowerFirst c = p.move c := by
  have h : p.moveLowerFirst c = p.move c := by
    unfold Paddle.moveLowerFirst Paddle.move
    simp only
    split_ifs <;> simp only at * <;> first | rfl | (exfalso; linarith)
  exact ⟨by rw [h], h⟩

/-- Witness of C14: `paddleLow` on `canvas800`. -/
theorem Paddle.move_clamps_commute_witness :
    (paddleLow.moveLowerFirst canvas800).posY = (paddleLow.move canvas800).posY ∧
    paddleLow.moveLowerFirst canvas800 = paddleLow.move canvas800 :=
  Paddle.move_clamps_commute canvas800 paddleLow
    (by norm_num [paddleLow, canvas800, Paddle.constructor])

/-! ## The winner modal is shown once (C13) -/

/-- C13: one `update()` calls `displayWinner` at most once, and only when no winner modal
is present: it leaves the winner modals unchanged or appends one modal to an empty list.
Hence over any sequence of `update()` calls (no Start or Reset in between) the list grows
by at most one modal, it is unchanged when a modal was present at the beginning, and it
never holds more than one modal when it held at most one at the beginning; and after any
sequence of events from the constructor's state at most one winner modal exists. -/
theorem Pong.update_displayWinner_once (c : Canvas) (s : Pong) :
    (∀ pts, (Pong.update c pts s).winnerModals = s.winnerModals ∨
      (s.winnerModals = [] ∧ ∃ w, (Pong.update c pts s).winnerModals = s.winnerModals ++ [w])) ∧
    (∀ ptss, (Pong.updates c s ptss).winnerModals.length ≤ s.winnerModals.length + 1) ∧
    (∀ ptss, s.winnerModals ≠ [] → (Pong.updates c s ptss).winnerModals = s.winnerModals) ∧
    (∀ ptss, s.winnerModals.length ≤ 1 → (Pong.updates c s ptss).winnerModals.length ≤ 1) ∧
    (∀ es, (Pong.run c (Pong.constructor c) es).winnerModals.length ≤ 1) := by
  have hne := fun ptss => Pong.updates_winnerModals_of_ne c ptss s
  have hnil := fun ptss => Pong.updates_winnerModals_of_nil c ptss s
  refine ⟨?_, ?_, hne, ?_,
    fun es => Pong.run_winnerModals_le c es (Pong.constructor c) (by simp [Pong.constructor])⟩
  · intro pts
    rcases Pong.update_winnerModals_cases c pts s with h | ⟨hm, w, h⟩
    · exact Or.inl h
    · exact Or.inr ⟨hm, w, by rw [h, hm]; rfl⟩
  · intro ptss
    by_cases hm : s.winnerModals = []
    · have := hnil ptss hm
      omega
    · rw [hne ptss hm]
      omega
  · intro ptss hlen
    by_cases hm : s.winnerModals = []
    · exact hnil ptss hm
    · rw [hne ptss hm]
      exact hlen

/-- Witness of C13: three frames from the score 3 : 2 with `pointsToWin = 3` and no modal
show exactly one modal, for P1. -/
theorem Pong.update_displayWinner_once_witness :
    (playing 400 240 4 4 3 2).winnerModals.length ≤ 1 ∧
    (Pong.updates canvas800 (playing 400 240 4 4 3 2)
      [some 3, some 3, some 3]).winnerModals.length ≤ 1 :=
  ⟨by simp [playing, Pong.constructor],
   (Pong.update_displayWinner_once canvas800 (playing 400 240 4 4 3 2)).2.2.2.1
    [some 3, some 3, some 3] (by simp [playing, Pong.constructor])⟩

/-! ## At most one player scores in a frame (C15) -/

/-- C15: on a canvas with `CANVAS_WIDTH > 0`, one `ballWallCollisions` call and one
`update()` each leave both scores unchanged, or raise `p1Score` by exactly 1 and leave
`p2Score`, or raise `p2Score` by exactly 1 and leave `p1Score`: the two players never both
score in the same frame and no score decreases. -/
theorem Pong.one_score_per_frame (c : Canvas) (hW : 0 < c.CANVAS_WIDTH) (s : Pong) :
    (((Pong.ballWallCollisions c s).p1Score = s.p1Score ∧
        (Pong.ballWallCollisions c s).p2Score = s.p2Score) ∨
      ((Pong.ballWallCollisions c s).p1Score = s.p1Score + 1 ∧
        (Pong.ballWallCollisions c s).p2Score = s.p2Score) ∨
      ((Pong.ballWallCollisions c s).p1Score = s.p1Score ∧
        (Pong.ballWallCollisions c s).p2Score = s.p2Score + 1)) ∧
    (∀ pts,
      ((Pong.update c pts s).p1Score = s.p1Score ∧
        (Pong.update c pts s).p2Score = s.p2Score) ∨
      ((Pong.update c pts s).p1Score = s.p1Score + 1 ∧
        (Pong.update c pts s).p2Score = s.p2Score) ∨
      ((Pong.update c pts s).p1Score = s.p1Score ∧
        (Pong.update c pts s).p2Score = s.p2Score + 1)) := by
  refine ⟨Pong.ballWallCollisions_one_score c s hW.le, ?_⟩
  intro pts
  obtain ⟨-, h1, h2⟩ := Pong.update_ball_scores c pts s
  rw [h1, h2]
  exact Pong.ballWallCollisions_one_score c _ hW.le

/-- Witness of C15: the frame of `canvas800` in which the ball crosses the right wall. -/
theorem Pong.one_score_per_frame_witness :
    0 < canvas800.CANVAS_WIDTH ∧
    (((Pong.update canvas800 (some 3) (playing 794 100 4 4 2 1)).p1Score =
          (playing 794 100 4 4 2 1).p1Score ∧
        (Pong.update canvas800 (some 3) (playing 794 100 4 4 2 1)).p2Score =
          (playing 794 100 4 4 2 1).p2Score) ∨
      ((Pong.update canvas800 (some 3) (playing 794 100 4 4 2 1)).p1Score =
          (playing 794 100 4 4 2 1).p1Score + 1 ∧
        (Pong.update canvas800 (some 3) (playing 794 100 4 4 2 1)).p2Score =
          (playing 794 100 4 4 2 1).p2Score) ∨
      ((Pong.update canvas800 (some 3) (playing 794 100 4 4 2 1)).p1Score =
          (playing 794 100 4 4 2 1).p1Score ∧
        (Pong.update canvas800 (some 3) (playing 794 100 4 4 2 1)).p2Score =
          (playing 794 100 4 4 2 1).p2Score + 1)) :=
  ⟨by norm_num [canvas800],
   (Pong.one_score_per_frame canvas800 (by norm_num [canvas800])
      (playing 794 100 4 4 2 1)).2 (some 3)⟩

/-! ## The ball stays inside the canvas (C16) -/

/-- C16: on a canvas with `CANVAS_WIDTH > 0` and the constructed ball's radius at most
`CANVAS_WIDTH / 2`, after any sequence of Start, Reset, key and frame events from the
constructor's state the ball satisfies `0 ≤ posX` and `posX + radius ≤ CANVAS_WIDTH`;
consequently an `update()` entered there with `isGameStart` false changes neither score. -/
theorem Pong.run_ball_within_width (c : Canvas) (hW : 0 < c.CANVAS_WIDTH)
    (hr : (Pong.constructor c).ball.radius ≤ c.CANVAS_WIDTH / 2) (es : List Pong.Event) :
    0 ≤ (Pong.run c (Pong.constructor c) es).ball.posX ∧
    (Pong.run c (Pong.constructor c) es).ball.posX +
      (Pong.run c (Pong.constructor c) es).ball.radius ≤ c.CANVAS_WIDTH ∧
    ((Pong.run c (Pong.constructor c) es).isGameStart = false →
      ∀ pts,
        (Pong.update c pts (Pong.run c (Pong.constructor c) es)).p1Score =
          (Pong.run c (Pong.constructor c) es).p1Score ∧
        (Pong.update c pts (Pong.run c (Pong.constructor c) es)).p2Score =
          (Pong.run c (Pong.constructor c) es).p2Score) := by
  have h0 : Pong.ballInCanvas c (Pong.constructor c) := by
    have hr2 : (10 : ℚ) ≤ c.CANVAS_WIDTH / 2 := hr
    simp only [Pong.ballInCanvas, Pong.constructor, Ball.constructor]
    constructor <;> linarith
  have hin := Pong.run_ballInCanvas c hW.le es (Pong.constructor c) hr h0
  exact ⟨hin.1, hin.2, fun hstop pts => Pong.update_no_score c pts _ hstop hin⟩

/-- Witness of C16: the events `someEvents` on `canvas800`, which end with the game stopped. -/
theorem Pong.run_ball_within_width_witness :
    (0 < canvas800.CANVAS_WIDTH ∧
      (Pong.constructor canvas800).ball.radius ≤ canvas800.CANVAS_WIDTH / 2) ∧
    0 ≤ (Pong.run canvas800 (Pong.constructor canvas800) someEvents).ball.posX ∧
    (Pong.run canvas800 (Pong.constructor canvas800) someEvents).ball.posX +
      (Pong.run canvas800 (Pong.constructor canvas800) someEvents).ball.radius ≤
      canvas800.CANVAS_WIDTH ∧
    (Pong.update canvas800 (some 3)
      (Pong.run canvas800 (Pong.constructor canvas800) someEvents)).p1Score =
      (Pong.run canvas800 (Pong.constructor canvas800) someEvents).p1Score :=
  ⟨⟨by norm_num [canvas800],
    by norm_num [canvas800, Pong.constructor, Ball.constructor]⟩,
   (Pong.run_ball_within_width canvas800 (by norm_num [canvas800])
      (by norm_num [canvas800, Pong.constructor, Ball.constructor]) someEvents).1,
   (Pong.run_ball_within_width canvas800 (by norm_num [canvas800])
      (by norm_num [canvas800, Pong.constructor, Ball.constructor]) someEvents).2.1,
   ((Pong.run_ball_within_width canvas800 (by norm_num [canvas800])
      (by norm_num [canvas800, Pong.constructor, Ball.constructor]) someEvents).2.2
      rfl (some 3)).1⟩

/-! ## Speed and radius of the ball (C17) -/

/-- C17: the Start handler (for any random numbers), the Reset handler, `update()`,
`ballPaddleCollisions`, `ballWallCollisions` and `Ball.move` each preserve `|ball.dx|`,
`|ball.dy|` and `ball.radius`; hence after any sequence of events from the constructor's
state `|dx| = 4`, `|dy| = 4` and the radius is the constructed value 10. -/
theorem Pong.speed_and_radius_preserved (c : Canvas) (s : Pong) :
    (∀ r1 r2, Ball.sameSpeed (Pong.startHandler c r1 r2 s).ball s.ball) ∧
    Ball.sameSpeed (Pong.resetHandler c s).ball s.ball ∧
    (∀ pts, Ball.sameSpeed (Pong.update c pts s).ball s.ball) ∧
    Ball.sameSpeed (Pong.ballPaddleCollisions s).ball s.ball ∧
    Ball.sameSpeed (Pong.ballWallCollisions c s).ball s.ball ∧
    Ball.sameSpeed s.ball.move s.ball ∧
    (∀ es, |(Pong.run c (Pong.constructor c) es).ball.dx| = 4 ∧
      |(Pong.run c (Pong.constructor c) es).ball.dy| = 4 ∧
      (Pong.run c (Pong.constructor c) es).ball.radius = 10) := by
  refine ⟨fun r1 r2 => Pong.startHandler_sameSpeed c r1 r2 s,
    Pong.resetHandler_sameSpeed c s, fun pts => Pong.update_sameSpeed c pts s,
    Pong.ballPaddleCollisions_sameSpeed s, Pong.ballWallCollisions_sameSpeed c s,
    Pong.move_sameSpeed s.ball, ?_⟩
  intro es
  obtain ⟨h1, h2, h3⟩ := Pong.run_sameSpeed c es (Pong.constructor c)
  rw [h1, h2, h3]
  simp only [Pong.constructor, Ball.constructor]
  norm_num

/-! ## The win checks read the scores at entry (C18) -/

/-- C18: after `update()`, `isGameStart` is false if at entry `p1Score > p2Score` and
`p1Score = pointsToWin`, or `p2Score > p1Score` and `p2Score = pointsToWin`; otherwise
`isGameStart` is unchanged. In particular an `update()` that directly follows a Start
issued while such a winning score stands ends with `isGameStart` false. -/
theorem Pong.update_win_check_at_entry (c : Canvas) (pts : Option ℤ) (s : Pong) :
    (((s.p1Score > s.p2Score ∧ pts = some s.p1Score) ∨
        (s.p2Score > s.p1Score ∧ pts = some s.p2Score)) →
      (Pong.update c pts s).isGameStart = false ∧
      ∀ r1 r2, (Pong.update c pts (Pong.startHandler c r1 r2 s)).isGameStart = false) ∧
    (¬ ((s.p1Score > s.p2Score ∧ pts = some s.p1Score) ∨
        (s.p2Score > s.p1Score ∧ pts = some s.p2Score)) →
      (Pong.update c pts s).isGameStart = s.isGameStart) := by
  constructor
  · intro h
    refine ⟨by rw [Pong.update_isGameStart, if_pos h], fun r1 r2 => ?_⟩
    rw [Pong.update_isGameStart, if_pos]
    exact h
  · intro h
    rw [Pong.update_isGameStart, if_neg h]

/-- Witness of C18: with the score 3 : 2 and `pointsToWin = 3`, a frame stops the game, also
right after Start; with `pointsToWin = 5` the frame leaves `isGameStart` as it is. -/
theorem Pong.update_win_check_at_entry_witness :
    ((Pong.update canvas800 (some 3) (playing 400 240 4 4 3 2)).isGameStart = false ∧
      ∀ r1 r2, (Pong.update canvas800 (some 3)
        (Pong.startHandler canvas800 r1 r2 (playing 400 240 4 4 3 2))).isGameStart = false) ∧
    (Pong.update canvas800 (some 5) (playing 400 240 4 4 3 2)).isGameStart =
      (playing 400 240 4 4 3 2).isGameStart :=
  ⟨(Pong.update_win_check_at_entry canvas800 (some 3) (playing 400 240 4 4 3 2)).1
    (Or.inl ⟨by simp [playing], by simp [playing]⟩),
   (Pong.update_win_check_at_entry canvas800 (some 5) (playing 400 240 4 4 3 2)).2
    (by simp [playing])⟩
